import Mathlib

/-!
# Verification of the Blockly rendering and connection core

A shallow embedding of the measurement, spacing, alignment, finalize and
connection-tracking routines of the Blockly block-rendering pipeline
(`Blockly.thrasos.RenderInfo`, `Blockly.geras.PathObject`,
`Blockly.RenderedConnection`, `Blockly.ThemeManager`), together with proofs
about them.  Geometry is modelled over `ℚ` (exact JS numbers for the inputs at
hand); the Euclidean distance of `RenderedConnection.distanceFrom` is modelled
over `ℝ` because of `Math.sqrt`.
-/

namespace Blockly

/-- The rendering-constants provider (an external collaborator of
`RenderInfo`): named numeric constants consumed verbatim by the spacing and
finalize rules. -/
structure Constants where
  NO_PADDING : ℚ
  SMALL_PADDING : ℚ
  MEDIUM_PADDING : ℚ
  MEDIUM_LARGE_PADDING : ℚ
  LARGE_PADDING : ℚ
  STATEMENT_INPUT_PADDING_LEFT : ℚ
  MIN_BLOCK_WIDTH : ℚ
  CORNER_RADIUS : ℚ
  TAB_WIDTH : ℚ
  MIN_BLOCK_HEIGHT : ℚ
deriving DecidableEq

/-- Modelled from the spec: `Blockly.blockRendering.Types` (the measurable
type bitmask) is not part of the corpus; per the spec a `Measurable` is a
tagged variant over field / icon / spacer / connection kinds / corners / hat /
jagged edge, and an input is simultaneously an input and one of
inline / external / statement (here: the three input constructors). -/
inductive MKind where
  | fieldElem
  | icon
  | spacer
  | hat
  | jaggedEdge
  | leftRoundCorner
  | leftSquareCorner
  | previousConn
  | nextConn
  | inlineInput
  | externalInput
  | statementInput
deriving DecidableEq

/-- One measurable visual unit of a row.  `isEditable` is meaningful for
fields (false elsewhere, as on the Measurable base class); `notchOffset` is
meaningful for previous/next connections; `width` is used for spacers. -/
structure Measurable where
  kind : MKind
  isEditable : Bool := false
  notchOffset : ℚ := 0
  width : ℚ := 0
deriving DecidableEq

def Measurable.isField (m : Measurable) : Bool := m.kind == MKind.fieldElem

def Measurable.isIcon (m : Measurable) : Bool := m.kind == MKind.icon

def Measurable.isSpacer (m : Measurable) : Bool := m.kind == MKind.spacer

def Measurable.isHat (m : Measurable) : Bool := m.kind == MKind.hat

def Measurable.isJaggedEdge (m : Measurable) : Bool := m.kind == MKind.jaggedEdge

def Measurable.isLeftRoundedCorner (m : Measurable) : Bool :=
  m.kind == MKind.leftRoundCorner

def Measurable.isLeftSquareCorner (m : Measurable) : Bool :=
  m.kind == MKind.leftSquareCorner

def Measurable.isPreviousConnection (m : Measurable) : Bool :=
  m.kind == MKind.previousConn

def Measurable.isNextConnection (m : Measurable) : Bool :=
  m.kind == MKind.nextConn

def Measurable.isPreviousOrNextConnection (m : Measurable) : Bool :=
  m.isPreviousConnection || m.isNextConnection

def Measurable.isInlineInput (m : Measurable) : Bool := m.kind == MKind.inlineInput

def Measurable.isExternalInput (m : Measurable) : Bool :=
  m.kind == MKind.externalInput

def Measurable.isStatementInput (m : Measurable) : Bool :=
  m.kind == MKind.statementInput

/-- An input carries the INPUT bit exactly when it is one of the three input
variants (`InputConnection` sets `Types.INPUT`; its three subclasses each add
their own bit). -/
def Measurable.isInput (m : Measurable) : Bool :=
  m.isInlineInput || m.isExternalInput || m.isStatementInput

/-- `getInRowSpacing_`, rules for `prev` present and `next` present
(source lines 263-331): spacing between a non-input and an input, icon and
non-input, inline input and field, corners and connections, equal-editability
fields, jagged edges, and the final `MEDIUM_PADDING` fallback. -/
def getInRowSpacingMid (c : Constants) (p n : Measurable) : ℚ :=
  if !p.isInput && n.isInput then
    if p.isEditable then
      if n.isInlineInput then c.SMALL_PADDING
      else if n.isExternalInput then c.SMALL_PADDING
      else c.LARGE_PADDING - 1
    else
      if n.isInlineInput then c.MEDIUM_LARGE_PADDING
      else if n.isExternalInput then c.MEDIUM_LARGE_PADDING
      else if n.isStatementInput then c.LARGE_PADDING
      else c.LARGE_PADDING - 1
  else if p.isIcon && !n.isInput then c.LARGE_PADDING
  else if p.isInlineInput && !n.isInput then
    if n.isEditable then c.MEDIUM_PADDING else c.LARGE_PADDING
  else if p.isLeftSquareCorner && n.isHat then c.NO_PADDING
  else if p.isLeftSquareCorner &&
      (n.isPreviousConnection || n.isNextConnection) then n.notchOffset
  else if p.isLeftRoundedCorner then n.notchOffset - c.CORNER_RADIUS
  else if !p.isInput && !n.isInput && p.isEditable == n.isEditable then
    c.LARGE_PADDING
  else if n.isJaggedEdge then c.LARGE_PADDING
  else c.MEDIUM_PADDING

/-- `getInRowSpacing_`, rules for `prev` present (source lines 222-331).
When `next` is null and none of the end-of-row cases for an input `prev`
matches, control falls through past every rule requiring `next` down to the
`MEDIUM_PADDING` fallback. -/
def getInRowSpacingSome (c : Constants) (p : Measurable) :
    Option Measurable → ℚ
  | none =>
      if !p.isInput then
        if p.isField && p.isEditable then c.MEDIUM_PADDING
        else if p.isIcon then c.LARGE_PADDING * 2 + 1
        else if p.isHat then c.NO_PADDING
        else if p.isPreviousOrNextConnection then c.LARGE_PADDING
        else if p.isLeftRoundedCorner then c.MIN_BLOCK_WIDTH
        else if p.isJaggedEdge then c.NO_PADDING
        else c.LARGE_PADDING
      else
        if p.isExternalInput then c.NO_PADDING
        else if p.isInlineInput then c.LARGE_PADDING
        else if p.isStatementInput then c.NO_PADDING
        else c.MEDIUM_PADDING
  | some n => getInRowSpacingMid c p n

/-- `Blockly.thrasos.RenderInfo.prototype.getInRowSpacing_`: the pairwise
spacing rule table, keyed on the kinds, editability and alignment of the
adjacent pair, with `none` standing for the row boundary (JS `null`). -/
def getInRowSpacing (c : Constants) (prev next : Option Measurable) : ℚ :=
  match prev with
  | none =>
      match next with
      | some n =>
          if n.isField && n.isEditable then c.MEDIUM_PADDING
          else if n.isInlineInput then c.MEDIUM_LARGE_PADDING
          else if n.isStatementInput then c.STATEMENT_INPUT_PADDING_LEFT
          else c.LARGE_PADDING
      | none => c.LARGE_PADDING
  | some p => getInRowSpacingSome c p next

/-- The disjunction of every enumerated guard of `getInRowSpacing_` that
returns before the final `MEDIUM_PADDING` fallback: a pair hits no enumerated
rule exactly when this is `false`. -/
def hitsEnumeratedRule (prev next : Option Measurable) : Bool :=
  match prev, next with
  | none, _ => true
  | some p, none =>
      !p.isInput || p.isExternalInput || p.isInlineInput || p.isStatementInput
  | some p, some n =>
      (!p.isInput && n.isInput) ||
      (p.isIcon && !n.isInput) ||
      (p.isInlineInput && !n.isInput) ||
      (p.isLeftSquareCorner && n.isHat) ||
      (p.isLeftSquareCorner && (n.isPreviousConnection || n.isNextConnection)) ||
      p.isLeftRoundedCorner ||
      (!p.isInput && !n.isInput && p.isEditable == n.isEditable) ||
      n.isJaggedEdge

/-! ## RenderedConnection: coordinates, hiding, and the connection database -/

/-- The observable state of one `RenderedConnection` together with the
database record the `ConnectionDB` holds for it.  Modelled from the spec:
`ConnectionDB` itself is outside the corpus; per the spec it is a spatial
index supporting insert and remove, so `dbEntry` records whether (and at
which coordinates) this connection is stored. -/
structure ConnState where
  x : ℚ
  y : ℚ
  hidden : Bool
  inDB : Bool
  dbEntry : Option (ℚ × ℚ)
deriving DecidableEq

/-- `db_.addConnection(this)`: store the connection at its current
coordinates and mark it as in the database. -/
def dbAdd (s : ConnState) : ConnState :=
  { s with inDB := true, dbEntry := some (s.x, s.y) }

/-- `db_.removeConnection_(this)`: drop the stored record. -/
def dbRemove (s : ConnState) : ConnState :=
  { s with inDB := false, dbEntry := none }

/-- `Blockly.RenderedConnection.prototype.moveTo`: remove from the database
if present, update the coordinates, then re-insert only when not hidden. -/
def moveTo (s : ConnState) (x y : ℚ) : ConnState :=
  let s1 := if s.inDB then dbRemove s else s
  let s2 := { s1 with x := x, y := y }
  if !s2.hidden then dbAdd s2 else s2

/-- `Blockly.RenderedConnection.prototype.setHidden`: record the flag, then
remove when hiding an indexed connection and insert when revealing an
unindexed one. -/
def setHidden (s : ConnState) (hidden : Bool) : ConnState :=
  let s1 := { s with hidden := hidden }
  if hidden && s1.inDB then dbRemove s1
  else if !hidden && !s1.inDB then dbAdd s1
  else s1

/-- One call of the `moveTo` / `setHidden` interface. -/
inductive ConnOp where
  | move (x y : ℚ)
  | hide (hidden : Bool)
deriving DecidableEq

def applyOp (s : ConnState) : ConnOp → ConnState
  | ConnOp.move x y => moveTo s x y
  | ConnOp.hide h => setHidden s h

def runOps (s : ConnState) (ops : List ConnOp) : ConnState :=
  ops.foldl applyOp s

/-- The constructor state of a `RenderedConnection` whose workspace has a
connection database: not yet in the database, not hidden
(`hidden_ = !this.db_`). -/
def ConnState.init : ConnState :=
  { x := 0, y := 0, hidden := false, inDB := false, dbEntry := none }

/-- The database record agrees with the `inDB_` flag and, when present,
holds the connection's current coordinates. -/
def DBConsistent (s : ConnState) : Prop :=
  s.dbEntry = if s.inDB then some (s.x, s.y) else none

/-! ## RenderInfo: finalize pass -/

/-- The per-row attributes touched by `finalize_`. -/
structure FRow where
  height : ℚ
  widthWithConnectedBlocks : ℚ
  yPos : ℚ
  xPos : ℚ
deriving DecidableEq

/-- Inputs of `finalize_`: the row list (the distinguished bottom row is the
last row of the list, the top row the first), `startX`, and the top and
bottom rows' hat ascender and descender heights. -/
structure BlockInfo where
  rows : List FRow
  startX : ℚ
  topRowAscenderHeight : ℚ
  bottomRowDescenderHeight : ℚ
deriving DecidableEq

/-- Block-level outputs of `finalize_`. -/
structure FinalizeResult where
  rows : List FRow
  height : ℚ
  baseline : ℚ
  widthWithChildren : ℚ
deriving DecidableEq

/-- The loop of `finalize_`: assign `yPos`/`xPos` from the running Y cursor,
advance the cursor by the row height, and on the bottom row (the last one)
inflate its height by the shortfall whenever the cursor minus the top row's
ascender is below `MIN_BLOCK_HEIGHT`.  Returns the updated rows and the
final cursor. -/
def finalizeRows (minBlockHeight startX asc : ℚ) :
    ℚ → List FRow → List FRow × ℚ
  | yCursor, [] => ([], yCursor)
  | yCursor, [row] =>
      let r := { row with yPos := yCursor, xPos := startX }
      let y1 := yCursor + row.height
      if y1 - asc < minBlockHeight then
        let diff := minBlockHeight - (y1 - asc)
        ([{ r with height := row.height + diff }], y1 + diff)
      else
        ([r], y1)
  | yCursor, row :: row2 :: rest =>
      let r := { row with yPos := yCursor, xPos := startX }
      let p := finalizeRows minBlockHeight startX asc
        (yCursor + row.height) (row2 :: rest)
      (r :: p.1, p.2)

/-- `Blockly.thrasos.RenderInfo.prototype.finalize_`: run the cursor loop
from 0, take the widest `widthWithConnectedBlocks`, and set the block
height, baseline and `widthWithChildren`. -/
def finalize (c : Constants) (info : BlockInfo) : FinalizeResult :=
  let p := finalizeRows c.MIN_BLOCK_HEIGHT info.startX
    info.topRowAscenderHeight 0 info.rows
  let widest := info.rows.foldl
    (fun m r => max m r.widthWithConnectedBlocks) 0
  { rows := p.1
    height := p.2
    baseline := p.2 - info.bottomRowDescenderHeight
    widthWithChildren := widest + info.startX }

/-- Sum of the heights of a list of rows. -/
def heightsSum (rs : List FRow) : ℚ :=
  (rs.map FRow.height).sum

/-! ## RenderInfo: alignment padding -/

/-- `Blockly.ALIGN_LEFT` / `ALIGN_CENTRE` / `ALIGN_RIGHT`, plus the case of a
row whose alignment is none of the three (the source's final `else`). -/
inductive BlockAlign where
  | left
  | centre
  | right
  | unset
deriving DecidableEq

/-- The row attributes touched by `addAlignmentPadding_`.  The leading and
trailing spacers (`row.getFirstSpacer()` / `row.getLastSpacer()`, accessors
outside the corpus) are modelled by their widths and taken to be distinct
spacers. -/
structure AlignRow where
  firstSpacerWidth : ℚ
  lastSpacerWidth : ℚ
  width : ℚ
  widthWithConnectedBlocks : ℚ
  hasExternalInput : Bool
  hasStatement : Bool
  align : BlockAlign
deriving DecidableEq

/-- `Blockly.thrasos.RenderInfo.prototype.addAlignmentPadding_`. -/
def addAlignmentPadding (row : AlignRow) (missingSpace : ℚ) : AlignRow :=
  let row1 :=
    if row.hasExternalInput || row.hasStatement then
      { row with widthWithConnectedBlocks :=
          row.widthWithConnectedBlocks + missingSpace }
    else row
  let row2 :=
    match row1.align with
    | BlockAlign.left =>
        { row1 with lastSpacerWidth := row1.lastSpacerWidth + missingSpace }
    | BlockAlign.centre =>
        { row1 with
            firstSpacerWidth := row1.firstSpacerWidth + missingSpace / 2,
            lastSpacerWidth := row1.lastSpacerWidth + missingSpace / 2 }
    | BlockAlign.right =>
        { row1 with firstSpacerWidth := row1.firstSpacerWidth + missingSpace }
    | BlockAlign.unset =>
        { row1 with lastSpacerWidth := row1.lastSpacerWidth + missingSpace }
  { row2 with width := row2.width + missingSpace }

/-! ## RenderInfo: element spacer insertion -/

/-- An `InRowSpacer` of the given width. -/
def mkInRowSpacer (w : ℚ) : Measurable :=
  { kind := MKind.spacer, width := w }

/-- The inner loop of `addElemSpacing_`: the old elements in order with a
spacer of width `getInRowSpacing_(prev, next)` between every adjacent
pair. -/
def weaveSpacers (c : Constants) : Measurable → List Measurable → List Measurable
  | e, [] => [e]
  | e, f :: rest =>
      e :: mkInRowSpacer (getInRowSpacing c (some e) (some f)) ::
        weaveSpacers c f rest

/-- The row attributes read by `addElemSpacing_`.  The boundary predicates
`startsWithElemSpacer()` / `endsWithElemSpacer()` are row methods outside the
corpus and are modelled as flags. -/
structure SpacingRow where
  elements : List Measurable
  hasExternalInput : Bool
  hasDummyInput : Bool
  startsWithElemSpacer : Bool
  endsWithElemSpacer : Bool
deriving DecidableEq

/-- The per-row body of `addElemSpacing_`, given whether any row of the block
has an external value input: optional leading spacer, woven inner spacers,
and an optional trailing spacer whose width additionally gets `TAB_WIDTH`
when the block has external inputs and this row has a dummy input.  Rows are
never element-free in a render pass; an empty row is left unchanged. -/
def addElemSpacingRow (c : Constants) (hasExternalInputs : Bool)
    (row : SpacingRow) : SpacingRow :=
  match row.elements with
  | [] => row
  | e0 :: rest =>
      let lead :=
        if row.startsWithElemSpacer then
          [mkInRowSpacer (getInRowSpacing c none (some e0))]
        else []
      let trailSpacing := getInRowSpacing c (some (rest.getLastD e0)) none +
        (if hasExternalInputs && row.hasDummyInput then c.TAB_WIDTH else 0)
      let trail :=
        if row.endsWithElemSpacer then [mkInRowSpacer trailSpacing] else []
      { row with elements := lead ++ weaveSpacers c e0 rest ++ trail }

/-- `Blockly.thrasos.RenderInfo.prototype.addElemSpacing_`: first scan all
rows for an external input, then rebuild every row's element list. -/
def addElemSpacing (c : Constants) (rows : List SpacingRow) : List SpacingRow :=
  let hasExternalInputs := rows.any fun r => r.hasExternalInput
  rows.map (addElemSpacingRow c hasExternalInputs)

/-! ## RenderedConnection: connect and disconnect render requests -/

/-- The connection type constants `Blockly.INPUT_VALUE`, `OUTPUT_VALUE`,
`NEXT_STATEMENT`, `PREVIOUS_STATEMENT`. -/
inductive ConnType where
  | inputValue
  | outputValue
  | nextStatement
  | previousStatement
deriving DecidableEq

/-- The externally visible calls `connect_` and `disconnectInternal_` issue
on the parent and child blocks. -/
inductive RenderAction where
  | updateDisabledParent
  | updateDisabledChild
  | renderParent
  | renderChild
deriving DecidableEq

def RenderAction.isRender : RenderAction → Bool
  | RenderAction.renderParent => true
  | RenderAction.renderChild => true
  | _ => false

/-- `Blockly.RenderedConnection.prototype.connect_` (this is the connection
on the superior block): update the disabled state of whichever side is
rendered, then, when both sides are rendered, render the child for a
sequencing (next/previous) parent connection and the parent otherwise. -/
def connectActions (parentType : ConnType)
    (parentRendered childRendered : Bool) : List RenderAction :=
  (if parentRendered then [RenderAction.updateDisabledParent] else []) ++
  (if childRendered then [RenderAction.updateDisabledChild] else []) ++
  (if parentRendered && childRendered then
    if parentType == ConnType.nextStatement ||
        parentType == ConnType.previousStatement then
      [RenderAction.renderChild]
    else
      [RenderAction.renderParent]
  else [])

/-- `Blockly.RenderedConnection.prototype.disconnectInternal_`: render the
parent if it is rendered; refresh the child's disabled state and render the
child if the child is rendered. -/
def disconnectActions (parentRendered childRendered : Bool) :
    List RenderAction :=
  (if parentRendered then [RenderAction.renderParent] else []) ++
  (if childRendered then
    [RenderAction.updateDisabledChild, RenderAction.renderChild]
  else [])

/-! ## PathObject: SVG transform attributes -/

/-- The `transform` attributes of the three SVG paths owned by a
`Blockly.geras.PathObject` (`none` = attribute absent). -/
structure PathTransforms where
  pathTransform : Option String
  lightTransform : Option String
  darkTransform : Option String
deriving DecidableEq

/-- The constructor state: the dark path is created with
`transform = translate(1,1)`, the primary and light paths without a
transform. -/
def PathTransforms.init : PathTransforms :=
  { pathTransform := none
    lightTransform := none
    darkTransform := some "translate(1,1)" }

/-- `Blockly.geras.PathObject.prototype.flipRTL`: unconditionally set the
three transform attributes, reapplying the dark path's (1,1) translation
before its mirror. -/
def flipRTL (_s : PathTransforms) : PathTransforms :=
  { pathTransform := some "scale(-1 1)"
    lightTransform := some "scale(-1 1)"
    darkTransform := some "translate(1,1) scale(-1 1)" }

/-! ## RenderedConnection: distance and connection checks -/

/-- A connection's workspace coordinates (`x_`, `y_`). -/
structure ConnPoint where
  x : ℝ
  y : ℝ

/-- `Blockly.RenderedConnection.prototype.distanceFrom`:
`Math.sqrt(xDiff * xDiff + yDiff * yDiff)`. -/
noncomputable def distanceFrom (a b : ConnPoint) : ℝ :=
  Real.sqrt ((a.x - b.x) * (a.x - b.x) + (a.y - b.y) * (a.y - b.y))

/-- `Blockly.RenderedConnection.prototype.isConnectionAllowed`: false when
the candidate is farther than `maxRadius`, otherwise the superclass
type-compatibility verdict (`superAllowed`, an external collaborator). -/
def isConnectionAllowed (a b : ConnPoint) (maxRadius : ℝ)
    (superAllowed : Bool) : Prop :=
  if distanceFrom a b > maxRadius then False else superAllowed = true

/-! ## Contract-violation errors -/

/-- The state read by `tighten_`: this connection's coordinates, its target
connection's coordinates, and whether the target block has an SVG root. -/
structure TightenCtx where
  x : ℚ
  y : ℚ
  targetX : ℚ
  targetY : ℚ
  hasSvgRoot : Bool
deriving DecidableEq

/-- `Blockly.RenderedConnection.prototype.tighten_`: when the offset to the
target connection is nonzero, throw if the target block is not rendered,
otherwise move it into place (modelled as success); a zero offset is a
no-op. -/
def tighten (ctx : TightenCtx) : Except String Unit :=
  let dx := ctx.targetX - ctx.x
  let dy := ctx.targetY - ctx.y
  if dx ≠ 0 ∨ dy ≠ 0 then
    if ctx.hasSvgRoot then Except.ok ()
    else Except.error "block is not rendered."
  else Except.ok ()

/-- `Blockly.RenderedConnection.prototype.respawnShadow_`: when the parent
has a workspace, a shadow DOM is recorded and undo events are being
recorded, respawn; throw if the shadow block that should exist afterwards
(`targetExistsAfter`) is absent.  Otherwise do nothing. -/
def respawnShadow (hasWorkspace hasShadowDom recordUndo
    targetExistsAfter : Bool) : Except String Unit :=
  if hasWorkspace && hasShadowDom && recordUndo then
    if targetExistsAfter then Except.ok ()
    else Except.error "Could not respawn the shadow block that should exist here."
  else Except.ok ()

/-- `Blockly.ThemeManager.prototype.unsubscribeWorkspace` over workspace
ids: `indexOf` below zero throws, otherwise `splice` removes the first
occurrence. -/
def unsubscribeWorkspace (subscribed : List Nat) (w : Nat) :
    Except String (List Nat) :=
  if subscribed.contains w then Except.ok (subscribed.erase w)
  else Except.error "Cannot unsubscribe a workspace that has not been subscribed."

/-! ## Concrete sample data -/

/-- A concrete rendering-constants assignment used to evaluate the theorems
on concrete inputs. -/
def sampleConstants : Constants :=
  { NO_PADDING := 0
    SMALL_PADDING := 3
    MEDIUM_PADDING := 5
    MEDIUM_LARGE_PADDING := 8
    LARGE_PADDING := 10
    STATEMENT_INPUT_PADDING_LEFT := 20
    MIN_BLOCK_WIDTH := 12
    CORNER_RADIUS := 8
    TAB_WIDTH := 8
    MIN_BLOCK_HEIGHT := 25 }

/-- A concrete one-element row with a dummy input, on a block with an
external value input. -/
def sampleSpacingRow : SpacingRow :=
  { elements := [{ kind := MKind.fieldElem }]
    hasExternalInput := true
    hasDummyInput := true
    startsWithElemSpacer := true
    endsWithElemSpacer := true }

/-- A concrete two-row block for the finalize pass. -/
def sampleBlockInfo : BlockInfo :=
  { rows := [{ height := 10, widthWithConnectedBlocks := 0, yPos := 0, xPos := 0 },
             { height := 5, widthWithConnectedBlocks := 30, yPos := 0, xPos := 0 }]
    startX := 2
    topRowAscenderHeight := 0
    bottomRowDescenderHeight := 3 }

end Blockly

namespace Blockly

/-!
# Theorems
-/

/-- C4: `addAlignmentPadding_` distributes the missing space `m` according to
the row's alignment: for a left-aligned (or default-aligned) row all of `m`
goes to the trailing spacer, for a centre-aligned row the leading and
trailing spacers each grow by exactly `m / 2` (so their growths differ by 0,
in particular by at most 1 unit), for a right-aligned row all of `m` goes to
the leading spacer; and in every case the row's width grows by exactly
`m`. -/
theorem blockly_c4_alignment_padding (row : AlignRow) (m : ℚ) :
    (addAlignmentPadding row m).width = row.width + m ∧
    (addAlignmentPadding row m).firstSpacerWidth = row.firstSpacerWidth +
      (match row.align with
       | BlockAlign.right => m
       | BlockAlign.centre => m / 2
       | _ => 0) ∧
    (addAlignmentPadding row m).lastSpacerWidth = row.lastSpacerWidth +
      (match row.align with
       | BlockAlign.left => m
       | BlockAlign.unset => m
       | BlockAlign.centre => m / 2
       | BlockAlign.right => 0) ∧
    ((addAlignmentPadding row m).firstSpacerWidth - row.firstSpacerWidth) +
      ((addAlignmentPadding row m).lastSpacerWidth - row.lastSpacerWidth) = m := by
  cases h : row.align <;>
    cases he : (row.hasExternalInput || row.hasStatement) <;>
      simp [addAlignmentPadding, h, he]

/-- C5: when both source blocks are rendered, `connect_` issues exactly one
explicit render call: the child's for a sequencing (next/previous statement)
superior connection, the parent's otherwise. -/
theorem blockly_c5_connect_render (t : ConnType) :
    (connectActions t true true).filter RenderAction.isRender =
      (if t == ConnType.nextStatement || t == ConnType.previousStatement then
        [RenderAction.renderChild]
      else
        [RenderAction.renderParent]) := by
  cases t <;> rfl

/-- C6 counterexample: on disconnect with both sides rendered, the code
refreshes the disabled state only on the child; no `updateDisabled` call is
issued for the parent, contradicting the claim that both sides are
refreshed. -/
theorem blockly_c6_counterexample :
    (disconnectActions true true).contains RenderAction.updateDisabledParent
        = false ∧
    (disconnectActions true true).contains RenderAction.renderParent = true ∧
    (disconnectActions true true).contains RenderAction.renderChild = true := by
  decide

/-- C6 (amended): `disconnectInternal_` renders each side exactly when that
side is rendered, refreshes the disabled state of the child exactly when the
child is rendered, and never refreshes the parent's disabled state. -/
theorem blockly_c6_disconnect (parentRendered childRendered : Bool) :
    (disconnectActions parentRendered childRendered).contains
        RenderAction.renderParent = parentRendered ∧
    (disconnectActions parentRendered childRendered).contains
        RenderAction.renderChild = childRendered ∧
    (disconnectActions parentRendered childRendered).contains
        RenderAction.updateDisabledChild = childRendered ∧
    (disconnectActions parentRendered childRendered).contains
        RenderAction.updateDisabledParent = false := by
  cases parentRendered <;> cases childRendered <;> decide

/-- C7 counterexample: two `flipRTL` calls do not restore the constructor's
attribute state — the primary path, created without a `transform` attribute,
carries `scale(-1 1)` after two flips. -/
theorem blockly_c7_counterexample :
    flipRTL (flipRTL PathTransforms.init) ≠ PathTransforms.init ∧
    (flipRTL (flipRTL PathTransforms.init)).pathTransform = some "scale(-1 1)" ∧
    PathTransforms.init.pathTransform = none := by
  refine ⟨?_, rfl, rfl⟩
  intro h
  simpa [flipRTL, PathTransforms.init] using congrArg PathTransforms.pathTransform h

/-- C7 (amended): `flipRTL` is idempotent — a second flip leaves the
attribute state of the first flip unchanged; the dark path's transform
carries the (1,1) translation after zero flips (`translate(1,1)`) and after
any flips (`translate(1,1) scale(-1 1)`), while the main and light paths,
initially transform-free, carry `scale(-1 1)` after any flips. -/
theorem blockly_c7_fliprtl_idempotent (s : PathTransforms) :
    flipRTL (flipRTL s) = flipRTL s ∧
    (flipRTL s).darkTransform = some "translate(1,1) scale(-1 1)" ∧
    (flipRTL s).pathTransform = some "scale(-1 1)" ∧
    (flipRTL s).lightTransform = some "scale(-1 1)" ∧
    PathTransforms.init.darkTransform = some "translate(1,1)" ∧
    PathTransforms.init.pathTransform = none ∧
    PathTransforms.init.lightTransform = none :=
  ⟨rfl, rfl, rfl, rfl, rfl, rfl, rfl⟩

/-- C9 counterexample: `tighten_` on a connection whose target block has no
SVG root does not throw when the two connections' coordinates already
coincide (`dx == 0 && dy == 0` short-circuits the whole body), contradicting
the claim that this contract violation always raises an error. -/
theorem blockly_c9_counterexample :
    tighten { x := 0, y := 0, targetX := 0, targetY := 0, hasSvgRoot := false }
      = Except.ok () := by
  simp [tighten]

/-- C9 (amended): each listed contract violation raises an `Error` aborting
the operation — `tighten_` throws when the target block has no SVG root and
the offset to the target connection is nonzero (a zero offset is a no-op);
`respawnShadow_` throws when the respawned shadow block is absent; and
`unsubscribeWorkspace` throws for a workspace that was never subscribed. -/
theorem blockly_c9_contract_errors :
    (∀ ctx : TightenCtx, ctx.hasSvgRoot = false →
      (ctx.targetX - ctx.x ≠ 0 ∨ ctx.targetY - ctx.y ≠ 0) →
      tighten ctx = Except.error "block is not rendered.") ∧
    (respawnShadow true true true false =
      Except.error "Could not respawn the shadow block that should exist here.") ∧
    (∀ (subscribed : List Nat) (w : Nat), subscribed.contains w = false →
      unsubscribeWorkspace subscribed w =
        Except.error "Cannot unsubscribe a workspace that has not been subscribed.") := by
  refine ⟨?_, rfl, ?_⟩
  · intro ctx hroot hne
    simp [tighten, hroot, hne]
  · intro subscribed w hw
    unfold unsubscribeWorkspace
    rw [if_neg (by simpa using hw)]

/-- C9 witness: the amended theorem evaluated at a nonzero-offset unrendered
target and at an unsubscribed workspace. -/
theorem blockly_c9_witness :
    tighten { x := 0, y := 0, targetX := 3, targetY := 0, hasSvgRoot := false }
      = Except.error "block is not rendered." ∧
    unsubscribeWorkspace [1, 2] 5 =
      Except.error "Cannot unsubscribe a workspace that has not been subscribed." :=
  ⟨blockly_c9_contract_errors.1 _ rfl (Or.inl (by norm_num)),
   blockly_c9_contract_errors.2.2 [1, 2] 5 (by decide)⟩

/-- C8: `distanceFrom` is the Euclidean distance of the two connections'
workspace coordinates — at (0,0) and (3,4) it is exactly 5 — and
`isConnectionAllowed` is false whenever the distance exceeds `maxRadius`,
and otherwise returns exactly the external type-compatibility verdict. -/
theorem blockly_c8_distance_gate :
    distanceFrom ⟨0, 0⟩ ⟨3, 4⟩ = 5 ∧
    (∀ (a b : ConnPoint) (r : ℝ) (superAllowed : Bool),
      distanceFrom a b > r → ¬ isConnectionAllowed a b r superAllowed) ∧
    (∀ (a b : ConnPoint) (r : ℝ) (superAllowed : Bool),
      distanceFrom a b ≤ r →
        (isConnectionAllowed a b r superAllowed ↔ superAllowed = true)) := by
  refine ⟨?_, ?_, ?_⟩
  · show Real.sqrt (((0 : ℝ) - 3) * ((0 : ℝ) - 3) +
      ((0 : ℝ) - 4) * ((0 : ℝ) - 4)) = 5
    rw [show ((0 : ℝ) - 3) * ((0 : ℝ) - 3) + ((0 : ℝ) - 4) * ((0 : ℝ) - 4)
        = 5 ^ 2 by norm_num]
    exact Real.sqrt_sq (by norm_num)
  · intro a b r superAllowed h
    unfold isConnectionAllowed
    rw [if_pos h]
    exact not_false
  · intro a b r superAllowed h
    unfold isConnectionAllowed
    rw [if_neg (not_lt.mpr h)]

/-- C8 witness: the gate evaluated at the connections (0,0) and (3,4) — the
candidate is rejected for `maxRadius = 1` and delegated for
`maxRadius = 10`. -/
theorem blockly_c8_witness :
    ¬ isConnectionAllowed ⟨0, 0⟩ ⟨3, 4⟩ 1 true ∧
    (isConnectionAllowed ⟨0, 0⟩ ⟨3, 4⟩ 10 true ↔ true = true) :=
  ⟨blockly_c8_distance_gate.2.1 _ _ _ _
      (by rw [blockly_c8_distance_gate.1]; norm_num),
   blockly_c8_distance_gate.2.2 _ _ _ _
      (by rw [blockly_c8_distance_gate.1]; norm_num)⟩

/-- C1: the enumerated pairwise spacing rules of `getInRowSpacing_` — an
editable field at the start of a row gets `MEDIUM_PADDING`, an inline input
at the start of a row gets `MEDIUM_LARGE_PADDING`, a left rounded corner
followed by a previous/next connection gets `next.notchOffset` minus
`CORNER_RADIUS`, and a pair matched by no enumerated rule falls through to
`MEDIUM_PADDING`. -/
theorem blockly_c1_spacing_rules (c : Constants) :
    (∀ (no w : ℚ), getInRowSpacing c none
        (some { kind := MKind.fieldElem, isEditable := true,
                notchOffset := no, width := w }) = c.MEDIUM_PADDING) ∧
    (∀ (ed : Bool) (no w : ℚ), getInRowSpacing c none
        (some { kind := MKind.inlineInput, isEditable := ed,
                notchOffset := no, width := w }) = c.MEDIUM_LARGE_PADDING) ∧
    (∀ p n : Measurable, p.kind = MKind.leftRoundCorner →
      (n.kind = MKind.previousConn ∨ n.kind = MKind.nextConn) →
      getInRowSpacing c (some p) (some n) = n.notchOffset - c.CORNER_RADIUS) ∧
    (∀ prev next : Option Measurable, hitsEnumeratedRule prev next = false →
      getInRowSpacing c prev next = c.MEDIUM_PADDING) := by
  refine ⟨fun no w => rfl, fun ed no w => rfl, ?_, ?_⟩
  · intro p n hp hn
    obtain ⟨pk, pe, pno, pw⟩ := p
    obtain ⟨nk, ne, nno, nw⟩ := n
    simp only at hp
    subst hp
    rcases hn with hn | hn <;> simp only at hn <;> subst hn <;> rfl
  · intro prev next h
    match prev, next with
    | none, next => simp [hitsEnumeratedRule] at h
    | some p, none =>
        simp only [hitsEnumeratedRule, Bool.or_eq_false_iff,
          Bool.not_eq_false'] at h
        obtain ⟨⟨⟨hin, hext⟩, hinl⟩, hstmt⟩ := h
        simp [Measurable.isInput, hext, hinl, hstmt] at hin
    | some p, some n =>
        simp only [hitsEnumeratedRule, Bool.or_eq_false_iff] at h
        obtain ⟨⟨⟨⟨⟨⟨⟨h1, h2⟩, h3⟩, h4⟩, h5⟩, h6⟩, h7⟩, h8⟩ := h
        simp [getInRowSpacing, getInRowSpacingSome, getInRowSpacingMid,
          h1, h2, h3, h4, h5, h6, h7, h8]

/-- C1 witness: the rules evaluated on concrete measurables with the sample
constants — a rounded corner before a previous connection with notch offset
16, and the non-enumerated pair (non-editable field, editable field) falling
through to `MEDIUM_PADDING`. -/
theorem blockly_c1_witness :
    getInRowSpacing sampleConstants
        (some { kind := MKind.leftRoundCorner })
        (some { kind := MKind.previousConn, notchOffset := 16 }) =
      (16 : ℚ) - sampleConstants.CORNER_RADIUS ∧
    getInRowSpacing sampleConstants
        (some { kind := MKind.fieldElem, isEditable := false })
        (some { kind := MKind.fieldElem, isEditable := true }) =
      sampleConstants.MEDIUM_PADDING ∧
    getInRowSpacing sampleConstants none
        (some { kind := MKind.fieldElem, isEditable := true,
                notchOffset := 0, width := 0 }) =
      sampleConstants.MEDIUM_PADDING :=
  ⟨(blockly_c1_spacing_rules sampleConstants).2.2.1 _ _ rfl (Or.inl rfl),
   (blockly_c1_spacing_rules sampleConstants).2.2.2 _ _ (by decide),
   (blockly_c1_spacing_rules sampleConstants).1 0 0⟩

/-- Every single `moveTo`/`setHidden` call re-establishes database
consistency and leaves the connection indexed exactly when it is not
hidden. -/
theorem applyOp_establishes (s : ConnState) (op : ConnOp)
    (h : DBConsistent s) :
    DBConsistent (applyOp s op) ∧
      (applyOp s op).inDB = !(applyOp s op).hidden := by
  rw [DBConsistent] at h
  cases op with
  | move x y =>
      by_cases hdb : s.inDB <;> by_cases hh : s.hidden = true <;>
        simp_all [applyOp, moveTo, dbAdd, dbRemove, DBConsistent]
  | hide hid =>
      cases hid <;> by_cases hdb : s.inDB <;>
        simp_all [applyOp, setHidden, dbAdd, dbRemove, DBConsistent]

theorem runOps_cons (s : ConnState) (op : ConnOp) (ops : List ConnOp) :
    runOps s (op :: ops) = runOps (applyOp s op) ops := rfl

/-- After any nonempty call sequence from a consistent state, the state is
consistent and indexed-iff-not-hidden. -/
theorem runOps_establishes (ops : List ConnOp) :
    ∀ s : ConnState, DBConsistent s → ops ≠ [] →
      DBConsistent (runOps s ops) ∧
        (runOps s ops).inDB = !(runOps s ops).hidden := by
  induction ops with
  | nil => intro s _ hne; exact absurd rfl hne
  | cons op rest ih =>
      intro s h _
      rw [runOps_cons]
      cases rest with
      | nil => exact applyOp_establishes s op h
      | cons op2 rest2 =>
          exact ih (applyOp s op) (applyOp_establishes s op h).1 (by simp)

/-- C2: after any nonempty finite sequence of `moveTo`/`setHidden` calls
starting from a database-consistent state (such as the constructor state),
the connection has a record in its connection database if and only if it is
not hidden, and any record the database holds carries the connection's
current coordinates — never stale ones. -/
theorem blockly_c2_moveto_invariant (s : ConnState) (ops : List ConnOp)
    (hcons : DBConsistent s) (hne : ops ≠ []) :
    ((runOps s ops).dbEntry.isSome ↔ (runOps s ops).hidden = false) ∧
    (∀ p, (runOps s ops).dbEntry = some p →
      p = ((runOps s ops).x, (runOps s ops).y)) := by
  obtain ⟨h1, h2⟩ := runOps_establishes ops s hcons hne
  rw [DBConsistent] at h1
  constructor
  · rw [h1, h2]
    cases hh : (runOps s ops).hidden <;> simp [hh]
  · intro p hp
    rw [h1] at hp
    by_cases hdb : (runOps s ops).inDB
    · rw [if_pos hdb] at hp
      exact (Option.some_inj.mp hp).symm
    · rw [if_neg hdb] at hp
      cases hp

/-- C2 witness: the invariant evaluated after the single call
`moveTo(3, 4)` on a freshly constructed connection. -/
theorem blockly_c2_witness :
    (runOps ConnState.init [ConnOp.move 3 4]).dbEntry.isSome ↔
      (runOps ConnState.init [ConnOp.move 3 4]).hidden = false :=
  (blockly_c2_moveto_invariant ConnState.init [ConnOp.move 3 4]
    (by simp [DBConsistent, ConnState.init]) (by simp)).1

/-- C10: in `addElemSpacing_`, a row that ends with an element spacer gets a
trailing spacer whose width is the pairwise `getInRowSpacing_` value plus
`TAB_WIDTH` exactly when some row of the block has an external value input
and this row has a dummy input — in particular, on a block with no external
inputs anywhere the trailing spacer carries exactly the pairwise value. -/
theorem blockly_c10_trailing_spacer (c : Constants) (rows : List SpacingRow)
    (row : SpacingRow) (hmem : row ∈ rows)
    (hend : row.endsWithElemSpacer = true)
    (e0 : Measurable) (rest : List Measurable)
    (helems : row.elements = e0 :: rest) :
    addElemSpacingRow c (rows.any fun r => r.hasExternalInput) row ∈
      addElemSpacing c rows ∧
    (addElemSpacingRow c (rows.any fun r => r.hasExternalInput)
        row).elements.getLast? =
      some (mkInRowSpacer (getInRowSpacing c (some (rest.getLastD e0)) none +
        (if (rows.any fun r => r.hasExternalInput) && row.hasDummyInput then
          c.TAB_WIDTH else 0))) := by
  constructor
  · show addElemSpacingRow c _ row ∈
      List.map (addElemSpacingRow c _) rows
    exact List.mem_map_of_mem _ hmem
  · obtain ⟨elems, hext, hdum, hstart, hends⟩ := row
    simp only at helems hend
    subst helems hend
    simp [addElemSpacingRow, List.getLast?_concat]

/-- C10 witness: the trailing-spacer rule evaluated on a one-row block whose
single row has a dummy input and an external value input. -/
theorem blockly_c10_witness :
    (addElemSpacingRow sampleConstants
        ([sampleSpacingRow].any fun r => r.hasExternalInput)
        sampleSpacingRow).elements.getLast? =
      some (mkInRowSpacer (getInRowSpacing sampleConstants
        (some (([] : List Measurable).getLastD { kind := MKind.fieldElem }))
        none +
        (if ([sampleSpacingRow].any fun r => r.hasExternalInput) &&
            sampleSpacingRow.hasDummyInput then
          sampleConstants.TAB_WIDTH else 0))) :=
  (blockly_c10_trailing_spacer sampleConstants [sampleSpacingRow]
    sampleSpacingRow (by simp) rfl { kind := MKind.fieldElem } [] rfl).2

theorem heightsSum_nil : heightsSum [] = 0 := rfl

theorem heightsSum_cons (r : FRow) (rs : List FRow) :
    heightsSum (r :: rs) = r.height + heightsSum rs := by
  simp [heightsSum]

/-- The final Y cursor of the finalize loop on a nonempty row list: start
plus natural height plus the minimum-height shortfall, when positive. -/
theorem finalizeRows_snd_formula (m sx a : ℚ) :
    ∀ (rs : List FRow) (y : ℚ), rs ≠ [] →
      (finalizeRows m sx a y rs).2 = y + heightsSum rs +
        (if y + heightsSum rs - a < m then
          m - (y + heightsSum rs - a)
        else 0) := by
  intro rs
  induction rs with
  | nil => intro y h; exact absurd rfl h
  | cons r rest ih =>
      intro y _
      cases rest with
      | nil =>
          rw [finalizeRows]
          simp only [heightsSum_cons, heightsSum_nil, add_zero]
          split <;> ring
      | cons r2 rest2 =>
          rw [finalizeRows]
          rw [ih (y + r.height) (by simp)]
          simp only [heightsSum_cons, add_assoc]

/-- The final Y cursor of the finalize loop is the start cursor plus the sum
of the resulting (inflated) row heights. -/
theorem finalizeRows_snd_eq_heightsSum (m sx a : ℚ) :
    ∀ (rs : List FRow) (y : ℚ),
      (finalizeRows m sx a y rs).2 =
        y + heightsSum (finalizeRows m sx a y rs).1 := by
  intro rs
  induction rs with
  | nil => intro y; simp [finalizeRows, heightsSum_nil]
  | cons r rest ih =>
      intro y
      cases rest with
      | nil =>
          rw [finalizeRows]
          split <;> simp [heightsSum_cons, heightsSum_nil]
          ring
      | cons r2 rest2 =>
          rw [finalizeRows]
          simp only [heightsSum_cons]
          rw [ih (y + r.height)]
          ring

/-- Pointwise characterization of the finalize loop: every row keeps its
data, receives the cursor position and `startX`, and only the last row's
height is inflated — by the shortfall to `minBlockHeight` measured from the
cursor end minus the ascender, when positive. -/
theorem finalizeRows_getElem (m sx a : ℚ) :
    ∀ (rs : List FRow) (y : ℚ) (i : ℕ),
      (finalizeRows m sx a y rs).1[i]? = (rs[i]?).map fun orig =>
        { orig with
          yPos := y + heightsSum (rs.take i)
          xPos := sx
          height := orig.height +
            (if i = rs.length - 1 then
              (if y + heightsSum rs - a < m then
                m - (y + heightsSum rs - a)
              else 0)
            else 0) } := by
  intro rs
  induction rs with
  | nil => intro y i; simp [finalizeRows]
  | cons r rest ih =>
      intro y i
      cases rest with
      | nil =>
          cases i with
          | zero =>
              rw [finalizeRows]
              split <;> rename_i hc <;>
                simp [heightsSum_cons, heightsSum_nil, hc]
          | succ j =>
              rw [finalizeRows]
              split
              all_goals simp
      | cons r2 rest2 =>
          cases i with
          | zero =>
              rw [finalizeRows]
              have hne : ¬ (0 : ℕ) = (r :: r2 :: rest2).length - 1 := by
                simp
              simp [hne, heightsSum_nil]
          | succ j =>
              rw [finalizeRows]
              simp only [List.getElem?_cons_succ]
              rw [ih (y + r.height) j]
              have hidx : (j = (r2 :: rest2).length - 1) =
                  (j + 1 = (r :: r2 :: rest2).length - 1) := by
                simp only [List.length_cons]
                exact propext ⟨fun h => by omega, fun h => by omega⟩
              simp only [heightsSum_cons, List.take_succ_cons, hidx, add_assoc]

/-- C3: after `finalize_` on a block with at least one row, the block height
is the sum of the final row heights; it equals the natural height plus the
minimum-height inflation (measured excluding the top row's ascender); every
row's `yPos` is the cumulative sum of the heights of the rows before it and
its `xPos` is `startX`; the inflation lands only on the bottom (last) row's
height; and the baseline is the final Y cursor minus the bottom row's
descender height. -/
theorem blockly_c3_finalize (c : Constants) (info : BlockInfo)
    (hne : info.rows ≠ []) :
    (finalize c info).height = heightsSum (finalize c info).rows ∧
    (finalize c info).height = heightsSum info.rows +
      (if heightsSum info.rows - info.topRowAscenderHeight <
          c.MIN_BLOCK_HEIGHT then
        c.MIN_BLOCK_HEIGHT -
          (heightsSum info.rows - info.topRowAscenderHeight)
      else 0) ∧
    (∀ i : ℕ, (finalize c info).rows[i]? = (info.rows[i]?).map fun orig =>
      { orig with
        yPos := heightsSum (info.rows.take i)
        xPos := info.startX
        height := orig.height +
          (if i = info.rows.length - 1 then
            (if heightsSum info.rows - info.topRowAscenderHeight <
                c.MIN_BLOCK_HEIGHT then
              c.MIN_BLOCK_HEIGHT -
                (heightsSum info.rows - info.topRowAscenderHeight)
            else 0)
          else 0) }) ∧
    (finalize c info).baseline =
      (finalize c info).height - info.bottomRowDescenderHeight := by
  refine ⟨?_, ?_, ?_, rfl⟩
  · show (finalizeRows c.MIN_BLOCK_HEIGHT info.startX
        info.topRowAscenderHeight 0 info.rows).2 =
      heightsSum (finalizeRows c.MIN_BLOCK_HEIGHT info.startX
        info.topRowAscenderHeight 0 info.rows).1
    rw [finalizeRows_snd_eq_heightsSum, zero_add]
  · show (finalizeRows c.MIN_BLOCK_HEIGHT info.startX
        info.topRowAscenderHeight 0 info.rows).2 = _
    rw [finalizeRows_snd_formula c.MIN_BLOCK_HEIGHT info.startX
      info.topRowAscenderHeight info.rows 0 hne]
    simp only [zero_add]
  · intro i
    show (finalizeRows c.MIN_BLOCK_HEIGHT info.startX
        info.topRowAscenderHeight 0 info.rows).1[i]? = _
    rw [finalizeRows_getElem]
    simp only [zero_add]

/-- C3 witness: the block-height equation of the finalize pass evaluated on
the concrete two-row block (natural height 15, below the minimum of 25, so
the bottom row is inflated by 10 and the block height is 25). -/
theorem blockly_c3_witness :
    (finalize sampleConstants sampleBlockInfo).height =
      heightsSum sampleBlockInfo.rows +
      (if heightsSum sampleBlockInfo.rows -
          sampleBlockInfo.topRowAscenderHeight <
          sampleConstants.MIN_BLOCK_HEIGHT then
        sampleConstants.MIN_BLOCK_HEIGHT -
          (heightsSum sampleBlockInfo.rows -
            sampleBlockInfo.topRowAscenderHeight)
      else 0) :=
  (blockly_c3_finalize sampleConstants sampleBlockInfo
    (by simp [sampleBlockInfo])).2.1

end Blockly
